import Mathlib

/-!
Verification of the Ufiles-Imagine orchestration layer.

This file gives a shallow embedding of the job-orchestration code of the
repository (`app/apps/imagination/{models,routes,schemas,services}.py` and
`app/apps/ai/{engine,midjourney,schemas}.py`) and proves or refutes the
frozen claims about it.  External collaborators (the ufiles media store,
the ufaas accounting service, the mongo persistence layer and the
`fastapi_mongo_base` task bookkeeping helpers `save_report` /
`save_and_emit` / `end_processing`) are not part of the sources; they are
modelled as effect counters or oracles and never mutate the embedded
entity fields.
-/

namespace Imagine

/-- `TaskStatusEnum` from the external `fastapi_mongo_base.tasks` library;
only the members actually used by the sources are embedded
(see the `task_status` table in `app/apps/imagination/schemas.py` 34-47). -/
inductive TaskStatusEnum where
  | none
  | draft
  | init
  | processing
  | completed
  | error
deriving DecidableEq, Repr

/-- `ImaginationStatus` — the canonical status enum.  It is defined twice in
the sources, in `app/apps/imagination/schemas.py` 9-20 and
`app/apps/ai/schemas.py` 7-18, with the same eleven members. -/
inductive ImaginationStatus where
  | none
  | draft
  | init
  | queue
  | waiting
  | running
  | processing
  | done
  | completed
  | error
  | cancelled
deriving DecidableEq, Repr

/-- `ImaginationStatus.is_done` (`app/apps/imagination/schemas.py` 49-56 and
`app/apps/ai/schemas.py` 75-82, textually identical): membership in
`(done, completed, error, cancelled)`. -/
def ImaginationStatus.is_done : ImaginationStatus → Bool
  | .done => true
  | .completed => true
  | .error => true
  | .cancelled => true
  | _ => false

/-- `ImaginationStatus.task_status` (`app/apps/imagination/schemas.py` 33-47
and `app/apps/ai/schemas.py` 59-73). -/
def ImaginationStatus.task_status : ImaginationStatus → TaskStatusEnum
  | .none => .none
  | .draft => .draft
  | .init => .init
  | .queue => .processing
  | .waiting => .processing
  | .running => .processing
  | .processing => .processing
  | .done => .completed
  | .completed => .completed
  | .error => .error
  | .cancelled => .completed

/-- `ImaginationStatus.progress` (`app/apps/ai/schemas.py` 20-25). -/
def ImaginationStatus.progress : ImaginationStatus → Int
  | .processing => 50
  | .done => 100
  | _ => 0

/-- `ImaginationStatus.from_midjourney` (`app/apps/imagination/schemas.py`
22-31, identical in `app/apps/ai/schemas.py` 27-36 and in
`Midjourney._status` / `BaseEngine._status`): unknown provider vocabulary
falls through to `error`. -/
def ImaginationStatus.from_midjourney (s : String) : ImaginationStatus :=
  if s = "initialized" then .init
  else if s = "queue" then .queue
  else if s = "waiting" then .waiting
  else if s = "running" then .processing
  else if s = "completed" then .completed
  else if s = "error" then .error
  else .error

/-! ## Percentage validators (claim C9)

The three validators cited by the claim —
`ImagineWebhookData.validate_percentage`
(`app/apps/imagination/schemas.py` 153-163),
`EnginesResponse.validate_percentage` (`app/apps/ai/engine.py` 20-30) and
`EnginesDetails.validate_percentage` (`app/apps/ai/schemas.py` 99-109) —
have textually identical bodies, embedded once below.  A pydantic
before-validator receives `None`, an `int`, or a `str`; the `str` branch
runs `int(value.replace("%", ""))`, which raises (rejecting the input)
when the stripped string is not an integer literal. -/

/-- Inputs a percentage validator can receive. -/
inductive PercentInput where
  | null
  | int (n : Int)
  | str (s : String)
deriving DecidableEq, Repr

/-- Decimal digit parsing for Python `int()`: all characters must be
digits, and at least one is required. -/
def digitsToNat (cs : List Char) : Option Nat :=
  match cs with
  | [] => Option.none
  | _ => cs.foldl (fun acc c =>
      match acc with
      | Option.none => Option.none
      | some n => if c.isDigit then some (n * 10 + (c.toNat - 48)) else Option.none)
      (some 0)

/-- Python `int(s)` on an optionally signed decimal literal; `Option.none`
is the `ValueError` on any other string. -/
def pyInt (cs : List Char) : Option Int :=
  match cs with
  | '-' :: rest => (digitsToNat rest).map (fun n => -(n : Int))
  | '+' :: rest => (digitsToNat rest).map (fun n => (n : Int))
  | _ => (digitsToNat cs).map (fun n => (n : Int))

/-- `value.replace("%", "")`: the pattern is the single character `%`, so
the replacement removes exactly the `%` characters. -/
def stripPercentChars (cs : List Char) : List Char :=
  cs.filter (fun c => c != '%')

/-- `validate_percentage` (all three identical copies).  `Option.none`
models the `ValueError` raised by `int()` on a malformed string, which
makes pydantic reject the input.  Note the `str` branch returns
`int(value.replace("%", ""))` directly, before the clamping checks. -/
def validate_percentage : PercentInput → Option Int
  | .null => some (-1)
  | .str s => pyInt (stripPercentChars s.data)
  | .int n =>
    if n < -1 then some (-1)
    else if n > 100 then some 100
    else some n

/-! ## Midjourney result conversion (claim C10) -/

/-- JSON-ish values for the raw provider result dict handled by
`_result_to_details` in `app/apps/ai/midjourney.py`. -/
inductive MJVal where
  | str (s : String)
  | num (n : Int)
  | obj (fields : List (String × MJVal))
  | null
  | boolean (b : Bool)

/-- A Python dict, as an association list (keys unique in practice;
popping removes every binding so the embedding is faithful either way). -/
abbrev MJDict := List (String × MJVal)

/-- `d.get(k)` / `d[k]`. -/
def dictGet (d : MJDict) (k : String) : Option MJVal :=
  match d.find? (fun p => p.1 == k) with
  | some p => some p.2
  | Option.none => Option.none

/-- `d.pop(k, None)`: the dict with every binding of `k` removed. -/
def dictPop (d : MJDict) (k : String) : MJDict :=
  d.filter (fun p => p.1 != k)

/-- Python truthiness of a JSON-ish value. -/
def MJVal.truthy : MJVal → Bool
  | .str s => s != ""
  | .num n => n != 0
  | .obj fields => !fields.isEmpty
  | .null => false
  | .boolean b => b

/-- The relevant fields of `MidjourneyDetails`
(`app/apps/ai/midjourney.py` 14-30 over `EnginesResponse`). -/
structure MidjourneyDetails where
  id : Option MJVal
  status : ImaginationStatus
  error : Option String
  result_uri : Option MJVal

/-- The error expression of `_result_to_details`:
`result["error"]["message"] if result.get("error") and
result["error"]["message"] else None`, evaluated on the dict after the
pops.  `Option.none` on the outside models an uncaught
`KeyError`/`TypeError` from the subscripts. -/
def mjErrorField (result : MJDict) : Option (Option String) :=
  match dictGet result "error" with
  | Option.none => some Option.none
  | some ev =>
    if ev.truthy then
      match ev with
      | .obj fields =>
        match dictGet fields "message" with
        | some (.str m) => some (if m = "" then Option.none else some m)
        | some v => if v.truthy then some (some "") else some Option.none
        | Option.none => Option.none
      | _ => Option.none
    else some Option.none

/-- `BaseMidjourney._result_to_details` (`app/apps/ai/midjourney.py`
106-120): reads `result["status"]` (a missing key raises, modelled as
`Option.none`), pops `"status"` and `"error"`, then builds the details.
`Midjourney._result_to_details` (186-200) has the same body; see
`Midjourney_result_to_details` below. -/
def BaseMidjourney_result_to_details (result : MJDict) : Option MidjourneyDetails :=
  match dictGet result "status" with
  | Option.none => Option.none
  | some sv =>
    let status := match sv with
      | .str s => ImaginationStatus.from_midjourney s
      | _ => ImaginationStatus.error
    let result := dictPop result "status"
    let result := dictPop result "error"
    match mjErrorField result with
    | Option.none => Option.none
    | some err =>
      some { id := dictGet result "uuid"
             status := status
             error := err
             result_uri := dictGet result "uri" }

/-- `Midjourney._result_to_details` (`app/apps/ai/midjourney.py` 186-200):
textually identical to the `BaseMidjourney` variant. -/
def Midjourney_result_to_details (result : MJDict) : Option MidjourneyDetails :=
  BaseMidjourney_result_to_details result

/-! ## The Job entity and its terminal transitions -/

/-- Modelled from the spec: the `core` property of the `ImaginationEngines`
enum (the provider-family tag consumed at `routes.py` 92/94 and
`services.py` 338/375) is not among the provided sources; per spec §2/§4.1
and `Dalle.core` in `app/apps/ai/dalle.py` 30-32 it tags the three
provider families midjourney / replicate / dalle. -/
inductive EngineCore where
  | midjourney
  | replicate
  | dalle
deriving DecidableEq, Repr

/-- `ImagineResponse` (`app/apps/imagination/schemas.py` 129-132). -/
structure ImagineResponse where
  url : String
  width : Nat
  height : Nat
deriving DecidableEq, Repr

/-- The `Imagination` entity (`app/apps/imagination/models.py` 19 over
`ImagineSchema`, `app/apps/imagination/schemas.py` 135-143, and the
`TaskMixin` task fields used by the services).  `retry_count` stands for
`meta_data.get("retry_count", 0)`, the only `meta_data` key the embedded
operations read or write; `usage_id` is the accounting reservation handle;
`bulk` is the back-reference to a parent bulk job; `created_at` is in
minutes. -/
structure Imagination where
  status : ImaginationStatus := .draft
  task_status : TaskStatusEnum := .init
  task_progress : Int := 0
  error : Option String := Option.none
  results : Option (List ImagineResponse) := Option.none
  retry_count : Nat := 0
  usage_id : Option Nat := Option.none
  bulk : Option Nat := Option.none
  engine : EngineCore := .midjourney
  created_at : Nat := 0
deriving DecidableEq, Repr

/-- Counters of externally visible side effects of one orchestration step:
`uploads` counts `process_result` invocations (image download + media-store
upload batches), `usage_cancels` counts accounting cancellations actually
issued by `cancel_usage`, `releases` counts `release_condition` calls,
`retries` counts fresh attempts scheduled by
`asyncio.create_task(self.start_processing())`, and `bulk_notifies` counts
notifications delivered to the bulk aggregation
(`imagine_bulk_result` / `ImaginationBulk.fail`). -/
structure Effects where
  uploads : Nat := 0
  usage_cancels : Nat := 0
  releases : Nat := 0
  retries : Nat := 0
  bulk_notifies : Nat := 0
deriving DecidableEq, Repr

/-- `Imagination.fail` (`app/apps/imagination/models.py` 51-65): sets
`task_status` and `status` to `error`, reports, saves, and calls
`cancel_usage` (`services.py` 283-293, which cancels only when a
`usage_id` is present).  The bulk-notification block at lines 63-65
(`if self.bulk: ... await main_task.fail()`) sits after the unconditional
`return` at line 62 and never executes, so `bulk_notifies` stays 0. -/
def Imagination.fail (img : Imagination) (message : String) : Imagination × Effects :=
  let _ := message
  let img := { img with task_status := TaskStatusEnum.error,
                        status := ImaginationStatus.error }
  (img, { usage_cancels := if img.usage_id.isSome then 1 else 0 })

/-- `Imagination.retry` (`app/apps/imagination/models.py` 34-49): while
`retry_count < max_retries` it increments the counter and schedules a
fresh attempt, returning `retry_count + 1`; otherwise it falls through to
`fail` and returns `-1`. -/
def Imagination.retry (img : Imagination) (message : String)
    (max_retries : Nat) : Imagination × Effects × Int :=
  let c := img.retry_count
  if c < max_retries then
    ({ img with retry_count := c + 1 }, { retries := 1 }, (c : Int) + 1)
  else
    let r := img.fail message
    (r.1, r.2, -1)

/-! ## Webhook / poll processing -/

/-- Modelled from the spec: the `MidjourneyWebhookData` class imported by
`services.py`/`routes.py` from `app/apps/imagination/schemas.py` is not
among the provided sources.  Its fields are fixed by its uses in
`process_imagine_webhook` and by the analogous classes that are present
(`ImagineWebhookData`, `EnginesResponse`, `PredictionModelWebhookData`):
a normalized `status`, a validated `percentage`, a result URL
(`(data.result or {}).get("uri")` for midjourney/dalle payloads,
`data.output` for replicate ones — both `None` when absent), and an
optional `error` message. -/
structure WebhookData where
  status : ImaginationStatus
  percentage : Int
  result_url : Option String
  error : Option String
deriving DecidableEq, Repr

/-- `process_result` (`app/apps/imagination/services.py` 125-151), wrapped
in `try_except_wrapper`: downloads the generated image, crops midjourney
output into a 2×2 grid (4 tiles, 1 image otherwise), uploads every tile to
the media store and overwrites `results` with one `ImagineResponse` per
uploaded tile.  The network/upload outcome is the oracle `uploadOk`; on
any exception the wrapper swallows the error, leaving the job unchanged.
Uploaded URLs and dimensions come from the external media store and are
abstracted as functions of the input URL; only the count matters to the
claims. -/
def process_result (img : Imagination) (url : String) (uploadOk : Bool) :
    Imagination × Effects :=
  if uploadOk then
    let n : Nat := if img.engine = EngineCore.midjourney then 4 else 1
    ({ img with results := some ((List.range n).map (fun i =>
        { url := url ++ "#" ++ toString i, width := 1, height := 1 })) },
     { uploads := 1 })
  else (img, { uploads := 1 })

/-- The service-timeout message assigned at `services.py` 213. -/
def serviceTimeoutMsg : String :=
  "Service Timeout Error: The service did not provide a result within the expected time frame."

/-- `process_imagine_webhook` (`app/apps/imagination/services.py` 154-217).
`uploadOk` is the media-store oracle and `now` the current time in
minutes.  An `error` payload is routed to `retry`; a `completed` payload
runs `process_result` per result URL (a missing URL makes
`for url in result_url` raise `TypeError`, modelled as `Except.error`),
then `end_processing` (external task bookkeeping) and `release_condition`;
every surviving payload then refreshes `task_progress`/`task_status`, and
a non-terminal payload arriving 10 or more minutes after `created_at`
forces the service-timeout failure followed by a defensive release.
`save_report`/`save_and_emit` belong to the external persistence
collaborator and do not mutate the embedded fields. -/
def process_imagine_webhook (img : Imagination) (data : WebhookData)
    (uploadOk : Bool) (now : Nat) : Except String (Imagination × Effects) :=
  if data.status = ImaginationStatus.error then
    let r := img.retry (data.error.getD "") 5
    Except.ok (r.1, r.2.1)
  else
    let step1 : Except String (Imagination × Effects) :=
      if data.status = ImaginationStatus.completed then
        match data.result_url with
        | Option.none => Except.error "TypeError: NoneType object is not iterable"
        | some url =>
          let r := process_result img url uploadOk
          Except.ok (r.1, { r.2 with releases := r.2.releases + 1 })
      else Except.ok (img, {})
    match step1 with
    | Except.error e => Except.error e
    | Except.ok (img, effs) =>
      let img := { img with
        task_progress := if data.status.is_done then 100 else data.percentage,
        task_status := data.status.task_status }
      if data.status.is_done = false ∧ 10 ≤ now - img.created_at then
        let img := { img with task_status := TaskStatusEnum.error,
                              status := ImaginationStatus.error,
                              error := some serviceTimeoutMsg }
        let r := img.fail "service didn't respond in time."
        Except.ok (r.1, { effs with
          usage_cancels := effs.usage_cancels + r.2.usage_cancels,
          releases := effs.releases + 1 })
      else Except.ok (img, effs)

/-- `check_imagination_status` (`app/apps/imagination/services.py`
365-384), the polling path: the engine's `result` (here the already
normalized `WebhookData`) is copied onto the job's `error` and `status`
fields and then fed into `process_imagine_webhook`. -/
def check_imagination_status (img : Imagination) (result : WebhookData)
    (uploadOk : Bool) (now : Nat) : Except String (Imagination × Effects) :=
  let img := { img with error := result.error, status := result.status }
  process_imagine_webhook img result uploadOk now

/-- Replies of the webhook route. -/
inductive WebhookReply where
  | empty
  | cancelledMsg
deriving DecidableEq, Repr

/-- `ImaginationRouter.webhook` (`app/apps/imagination/routes.py` 85-102):
payloads for engines whose core is neither midjourney nor replicate are
acknowledged with `{}` without processing; a job whose status is
`cancelled` is acknowledged with a message without processing; every other
job has its payload processed by `process_imagine_webhook`. -/
def webhook (img : Imagination) (data : WebhookData) (uploadOk : Bool)
    (now : Nat) : Except String (WebhookReply × Imagination × Effects) :=
  if img.engine ≠ EngineCore.midjourney ∧ img.engine ≠ EngineCore.replicate then
    Except.ok (WebhookReply.empty, img, {})
  else if img.status = ImaginationStatus.cancelled then
    Except.ok (WebhookReply.cancelledMsg, img, {})
  else
    match process_imagine_webhook img data uploadOk now with
    | Except.ok (img, effs) => Except.ok (WebhookReply.empty, img, effs)
    | Except.error e => Except.error e

/-! ## Bulk aggregation (claims C2, C7)

The children of a bulk job live in the database; the mongo queries of
`completed_tasks` / `failed_tasks` (`app/apps/imagination/models.py`
156-171) are embedded as filters over the current list of child jobs. -/

/-- `ImagineBulkError` — one entry of the bulk `errors` list.  The class
itself is imported from the part of `app/apps/imagination/schemas.py`
missing from the provided sources; its two fields are fixed by its
construction site (`models.py` 148-150). -/
structure ImagineBulkError where
  engine : EngineCore
  message : String
deriving DecidableEq, Repr

/-- The `ImaginationBulk` entity (`app/apps/imagination/models.py` 76 over
`ImagineBulkSchema`, whose schema file is missing from the provided
sources; the embedded fields are exactly those read and written by
`imagine_bulk_process`, `imagine_bulk_result` and `ImaginationBulk.fail`).
`completed_at` is in minutes. -/
structure ImaginationBulk where
  total_tasks : Nat
  total_completed : Nat := 0
  total_failed : Nat := 0
  task_status : TaskStatusEnum := .init
  completed_at : Option Nat := Option.none
  errors : List ImagineBulkError := []
deriving DecidableEq, Repr

/-- `ImaginationBulk.completed_tasks` (`models.py` 156-163): children with
status `completed` and a non-null `results` field. -/
def completed_tasks (children : List Imagination) : List Imagination :=
  children.filter (fun c => c.status == ImaginationStatus.completed && c.results.isSome)

/-- `ImaginationBulk.failed_tasks` (`models.py` 165-171): children with
status `error`. -/
def failed_tasks (children : List Imagination) : List Imagination :=
  children.filter (fun c => c.status == ImaginationStatus.error)

/-- Python `item.error or "Error"` (`models.py` 149): `None` and the empty
string both fall back to the default. -/
def pyOrError (e : Option String) : String :=
  match e with
  | some m => if m = "" then "Error" else m
  | Option.none => "Error"

/-- `imagine_bulk_process` (`app/apps/imagination/services.py` 461-479):
returns the bulk unchanged while `failed + completed ≠ total_tasks`;
otherwise sets `task_status` to `error` when every task failed and to
`completed` otherwise, recording `completed_at` only on the `completed`
branch. -/
def imagine_bulk_process (bulk : ImaginationBulk) (children : List Imagination)
    (now : Nat) : ImaginationBulk :=
  let failed := failed_tasks children
  let comp := completed_tasks children
  if failed.length + comp.length ≠ bulk.total_tasks then bulk
  else
    let bulk := { bulk with task_status :=
      if failed.length = bulk.total_tasks then TaskStatusEnum.error
      else TaskStatusEnum.completed }
    if bulk.task_status = TaskStatusEnum.completed then
      { bulk with completed_at := some now }
    else bulk

/-- `ImaginationBulk.fail` (`app/apps/imagination/models.py` 137-154):
increments `total_failed`, rebuilds `errors` by re-scanning the failed
children, saves, and runs `imagine_bulk_process`. -/
def ImaginationBulk.fail (bulk : ImaginationBulk) (children : List Imagination)
    (now : Nat) : ImaginationBulk :=
  let bulk := { bulk with
    total_failed := bulk.total_failed + 1,
    errors := (failed_tasks children).map (fun c =>
      { engine := c.engine, message := pyOrError c.error }) }
  imagine_bulk_process bulk children now

/-- `imagine_bulk_result` (`app/apps/imagination/services.py` 447-458):
rebuilds `total_completed` (and the results list, not embedded here) by
re-scanning the completed children, then runs `imagine_bulk_process`.
No call site of this function exists anywhere in the provided sources. -/
def imagine_bulk_result (bulk : ImaginationBulk) (children : List Imagination)
    (now : Nat) : ImaginationBulk :=
  let bulk := { bulk with total_completed := (completed_tasks children).length }
  imagine_bulk_process bulk children now

/-! ## Completion coordinator (claim C8)

`_imagination_conditions` (`app/apps/imagination/services.py` 30-51) maps
a job id to an `asyncio.Condition`.  The embedding tracks, for one job,
the registry entry, an allocator of condition-object identities, and the
progress of the single waiter of `imagine_request` (`services.py`
341-344).  Scheduling is cooperative, and the atomicity of each turn
follows asyncio's semantics: an uncontended `Lock.acquire` returns on its
fast path without yielding to the event loop, and `Condition.wait()` is
synchronous up to its internal `await fut`, which runs only after the
future has been appended to the condition's waiter list.  The condition's
lock is never observed contended here — the waiter holds it only across
synchronous code, and `release_condition`'s critical section
(`notify_all`) contains no await — so the waiter's stretch
`get_condition` / `async with condition` / entry into `condition.wait()`
executes as one atomic turn, as does one full `release_condition` call.
`notify_all` wakes only tasks currently suspended inside `wait()` on that
same condition object. -/

/-- Program counter of the waiter in `imagine_request`: it is either
before the wait block, suspended inside `condition.wait()` (registration
and suspension happen in the same synchronous stretch), or woken.  The
waiter's own `cleanup_condition` after waking is omitted: it runs after
the wakeup the claim is about. -/
inductive WaiterPC where
  | start
  | waiting
  | woken
deriving DecidableEq, Repr

/-- Coordinator state for one job id. -/
structure CoordState where
  registry : Option Nat := Option.none
  next_id : Nat := 0
  waiter_pc : WaiterPC := .start
  waiter_cond : Option Nat := Option.none
deriving DecidableEq, Repr

/-- `get_condition` (`services.py` 34-38): return the registered condition,
creating a fresh one on first use. -/
def get_condition (s : CoordState) : Nat × CoordState :=
  match s.registry with
  | some c => (c, s)
  | Option.none =>
    (s.next_id, { s with registry := some s.next_id, next_id := s.next_id + 1 })

/-- One scheduler turn of the waiter (`imagine_request`, `services.py`
341-343): `condition = get_condition(uid)`, the uncontended
`async with condition` acquire, and `condition.wait()` up to its internal
suspension are one synchronous stretch, so the waiter registers and
suspends atomically. -/
def waiter_step (s : CoordState) : CoordState :=
  match s.waiter_pc with
  | .start =>
    let r := get_condition s
    { r.2 with waiter_pc := .waiting, waiter_cond := some r.1 }
  | _ => s

/-- One full `release_condition` call (`services.py` 47-51):
`get_condition`, `notify_all` (waking a waiter currently suspended in
`wait()` on that same condition object), then `cleanup_condition`
(removing the registry entry).  Its only awaits are the uncontended lock
acquire, so the whole call is one atomic turn. -/
def release_step (s : CoordState) : CoordState :=
  let r := get_condition s
  let s := r.2
  let s :=
    if s.waiter_pc = WaiterPC.waiting ∧ s.waiter_cond = some r.1 then
      { s with waiter_pc := WaiterPC.woken }
    else s
  { s with registry := Option.none }

/-- A cooperative schedule. -/
inductive CoordMove where
  | waiter
  | release
deriving DecidableEq, Repr

/-- Run a schedule from a coordinator state. -/
def coord_run (ms : List CoordMove) (s : CoordState) : CoordState :=
  ms.foldl (fun s m =>
    match m with
    | CoordMove.waiter => waiter_step s
    | CoordMove.release => release_step s) s

/-! ## Derived definitions used by the theorems -/

/-- `n` consecutive error transitions: `retry` applied `n` times
(each failed attempt of a job re-enters `Imagination.retry`). -/
def retry_iter (img : Imagination) (msg : String) : Nat → Imagination
  | 0 => img
  | n + 1 => ((retry_iter img msg n).retry msg 5).1

/-- The job state of a non-raising processing step. -/
def okState : Except String (Imagination × Effects) → Option Imagination
  | Except.ok r => some r.1
  | Except.error _ => Option.none

/-- The effects of a non-raising processing step. -/
def okEffects : Except String (Imagination × Effects) → Option Effects
  | Except.ok r => some r.2
  | Except.error _ => Option.none

/-- The effects of a non-raising webhook route call. -/
def routeEffects : Except String (WebhookReply × Imagination × Effects) → Option Effects
  | Except.ok r => some r.2.2
  | Except.error _ => Option.none

/-- The job state of a non-raising webhook route call. -/
def routeState : Except String (WebhookReply × Imagination × Effects) → Option Imagination
  | Except.ok r => some r.2.1
  | Except.error _ => Option.none

/-- A queued job with an accounting reservation, created at minute 0. -/
def timedOutJob : Imagination :=
  { status := ImaginationStatus.queue
    engine := EngineCore.midjourney
    usage_id := some 7
    created_at := 0 }

/-- A non-terminal progress update. -/
def latePayload : WebhookData :=
  { status := ImaginationStatus.processing
    percentage := 50
    result_url := Option.none
    error := Option.none }

/-- A terminal `error` payload. -/
def errorPayload : WebhookData :=
  { status := ImaginationStatus.error
    percentage := 0
    result_url := Option.none
    error := some "provider failed" }

/-- A processing bulk job expecting exactly two children. -/
def mixedBulk : ImaginationBulk :=
  { total_tasks := 2, task_status := TaskStatusEnum.processing }

/-- A successfully completed child job. -/
def completedChild : Imagination :=
  { status := ImaginationStatus.completed
    engine := EngineCore.replicate
    results := some [{ url := "r0", width := 1, height := 1 }] }

/-- A job already in the terminal-success state, as left by an earlier
completed delivery. -/
def terminalJob : Imagination :=
  { status := ImaginationStatus.completed
    engine := EngineCore.midjourney
    results := some [{ url := "u0", width := 1, height := 1 }] }

/-- A terminal `completed` webhook payload carrying one result URL. -/
def completedPayload : WebhookData :=
  { status := ImaginationStatus.completed
    percentage := 100
    result_url := some "http://x/img.png"
    error := Option.none }

/-- A job still waiting on its provider, polled by the worker. -/
def pollingJob : Imagination :=
  { status := ImaginationStatus.waiting, engine := EngineCore.midjourney }

/-- A terminal `completed` poll result carrying one result URL. -/
def uriPayload : WebhookData :=
  { status := ImaginationStatus.completed
    percentage := 100
    result_url := some "http://y/img.png"
    error := Option.none }

/-- A processing bulk job expecting exactly one child. -/
def procBulk : ImaginationBulk :=
  { total_tasks := 1, task_status := TaskStatusEnum.processing }

/-- A permanently failed child job. -/
def errorChild : Imagination :=
  { status := ImaginationStatus.error, error := some "boom" }

/-- A raw midjourney provider result carrying an error message. -/
def mjExampleDict : MJDict :=
  [("status", MJVal.str "completed"),
   ("error", MJVal.obj [("message", MJVal.str "provider failed")]),
   ("uuid", MJVal.str "id-1"),
   ("uri", MJVal.str "http://img")]

/-- What `_result_to_details` produces on `mjExampleDict`. -/
def mjExampleDetails : MidjourneyDetails :=
  { id := some (MJVal.str "id-1")
    status := ImaginationStatus.completed
    error := Option.none
    result_uri := some (MJVal.str "http://img") }

/-- Registry consistency: whenever the waiter is suspended in `wait()`,
the registry still holds exactly the condition object it suspended on
(this is what the atomic register-and-suspend stretch guarantees). -/
def coordInv (s : CoordState) : Prop :=
  s.waiter_pc = WaiterPC.waiting →
    ∃ c, s.waiter_cond = some c ∧ s.registry = some c

/-! # Theorems -/

/-! ## Claim C6 — terminality of statuses -/

/-- Claim C6, counterexample: `is_done` also holds for the status `done`,
which is none of `completed`, `error`, `cancelled`, so `is_done` does not
hold exactly on those three statuses. -/
theorem is_done_holds_on_done :
    ImaginationStatus.done.is_done = true ∧
    ImaginationStatus.done ≠ ImaginationStatus.completed ∧
    ImaginationStatus.done ≠ ImaginationStatus.error ∧
    ImaginationStatus.done ≠ ImaginationStatus.cancelled := by
  refine ⟨rfl, ?_, ?_, ?_⟩ <;> decide

/-- Claim C6, amended: `is_done` holds exactly for the four statuses
`done`, `completed`, `error` and `cancelled`, and is false for every other
status of the canonical set (`none`, `draft`, `init`, `queue`, `waiting`,
`running`, `processing`). -/
theorem is_done_characterization (s : ImaginationStatus) :
    s.is_done = true ↔
      (s = ImaginationStatus.done ∨ s = ImaginationStatus.completed ∨
       s = ImaginationStatus.error ∨ s = ImaginationStatus.cancelled) := by
  cases s <;> simp [ImaginationStatus.is_done]

/-- Claim C6, witness for the amended theorem at the status `done`. -/
theorem is_done_characterization_witness :
    ImaginationStatus.done = ImaginationStatus.done ∨
    ImaginationStatus.done = ImaginationStatus.completed ∨
    ImaginationStatus.done = ImaginationStatus.error ∨
    ImaginationStatus.done = ImaginationStatus.cancelled :=
  (is_done_characterization ImaginationStatus.done).mp rfl

/-! ## Claim C9 — percentage clamping -/

/-- Claim C9, counterexample: the percent string `"150%"` is accepted by
the validators and normalizes to `150`, which lies outside `[-1, 100]`. -/
theorem percentage_string_unclamped :
    validate_percentage (PercentInput.str "150%") = some 150 ∧
    ¬ ((150 : Int) ≤ 100) := by
  exact ⟨by decide, by decide⟩

/-- Claim C9, amended: `None` normalizes to `-1` and integer inputs are
clamped into `[-1, 100]` (below `-1` maps to `-1`, above `100` maps to
`100`), but accepted percent strings are converted to their integer value
without any clamping, so string inputs can normalize outside `[-1, 100]`. -/
theorem percentage_clamping_ints_only :
    (validate_percentage PercentInput.null = some (-1)) ∧
    (∀ n : Int, ∃ m : Int, validate_percentage (PercentInput.int n) = some m ∧
       -1 ≤ m ∧ m ≤ 100 ∧ (n < -1 → m = -1) ∧ (n > 100 → m = 100)) ∧
    (∀ (s : String) (n : Int), pyInt (stripPercentChars s.data) = some n →
       validate_percentage (PercentInput.str s) = some n) := by
  refine ⟨rfl, ?_, ?_⟩
  · intro n
    by_cases h1 : n < -1
    · exact ⟨-1, by simp [validate_percentage, h1], by omega, by omega,
        fun _ => rfl, fun h2 => by omega⟩
    · by_cases h2 : n > 100
      · exact ⟨100, by simp [validate_percentage, h1, h2], by omega, by omega,
          fun h => absurd h h1, fun _ => rfl⟩
      · exact ⟨n, by simp [validate_percentage, h1, h2], by omega, by omega,
          fun h => absurd h h1, fun h => absurd h h2⟩
  · intro s n h
    simpa [validate_percentage] using h

/-- Claim C9, witness for the amended theorem at concrete inputs. -/
theorem percentage_clamping_ints_only_witness :
    validate_percentage PercentInput.null = some (-1) ∧
    (∃ m : Int, validate_percentage (PercentInput.int 250) = some m ∧
       -1 ≤ m ∧ m ≤ 100 ∧ ((250 : Int) < -1 → m = -1) ∧ ((250 : Int) > 100 → m = 100)) ∧
    validate_percentage (PercentInput.str "42%") = some 42 :=
  ⟨percentage_clamping_ints_only.1,
   percentage_clamping_ints_only.2.1 250,
   percentage_clamping_ints_only.2.2 "42%" 42 (by decide)⟩

/-! ## Claim C10 — the Midjourney error field is always dropped -/

/-- After `d.pop(k, None)`, looking up `k` finds nothing. -/
theorem dictGet_dictPop (d : MJDict) (k : String) :
    dictGet (dictPop d k) k = Option.none := by
  induction d with
  | nil => rfl
  | cons p d ih =>
    by_cases h : p.1 == k
    · have hb : (p.1 != k) = false := by simp [bne, h]
      simpa [dictPop, List.filter_cons, hb] using ih
    · have h' : (p.1 == k) = false := by
        cases hpk : (p.1 == k)
        · rfl
        · exact absurd hpk h
      have hb : (p.1 != k) = true := by simp [bne, h']
      simp only [dictPop, List.filter_cons, hb, if_true]
      simp only [dictGet, List.find?, h']
      simpa [dictGet, dictPop] using ih

/-- Claim C10: in both `_result_to_details` variants the `error` entry is
popped from the raw result dict before the error expression reads it, so
every successfully converted details record carries `error = None` and a
provider-supplied error message never propagates. -/
theorem mj_error_always_dropped :
    (∀ r d, BaseMidjourney_result_to_details r = some d → d.error = Option.none) ∧
    (∀ r d, Midjourney_result_to_details r = some d → d.error = Option.none) := by
  have base : ∀ r d, BaseMidjourney_result_to_details r = some d → d.error = Option.none := by
    intro r d h
    unfold BaseMidjourney_result_to_details at h
    cases hs : dictGet r "status" with
    | none => rw [hs] at h; cases h
    | some sv =>
      rw [hs] at h
      have hm : mjErrorField (dictPop (dictPop r "status") "error") = some Option.none := by
        unfold mjErrorField
        rw [dictGet_dictPop]
      simp only [hm] at h
      cases h
      rfl
  exact ⟨base, fun r d h => base r d h⟩

/-- Claim C10, witness: the concrete provider result that carries an error
message converts to details whose error field is `None`. -/
theorem mj_error_always_dropped_witness :
    mjExampleDetails.error = Option.none ∧ mjExampleDetails.error = Option.none :=
  ⟨mj_error_always_dropped.1 mjExampleDict mjExampleDetails rfl,
   mj_error_always_dropped.2 mjExampleDict mjExampleDetails rfl⟩

/-! ## Claim C3 — retry ceiling invariant -/

/-- One `retry` keeps the counter within the ceiling. -/
theorem retry_step_le (j : Imagination) (msg : String) (h : j.retry_count ≤ 5) :
    (j.retry msg 5).1.retry_count ≤ 5 := by
  unfold Imagination.retry
  by_cases hc : j.retry_count < 5
  · simp only [hc, if_true]
    omega
  · simp only [hc, if_false, Imagination.fail]
    exact h

/-- Claim C3: starting from a fresh job (counter 0), any sequence of error
transitions keeps `retry_count ≤ 5`; `retry` increments the counter and
schedules a fresh attempt only while strictly below the ceiling, and the
failure at the ceiling performs the permanent-failure transition `fail`
(status and task status `error`, no new attempt, Python return value `-1`)
leaving the counter unchanged. -/
theorem retry_ceiling (img : Imagination) (msg : String)
    (h0 : img.retry_count = 0) :
    (∀ n, (retry_iter img msg n).retry_count ≤ 5) ∧
    (∀ j : Imagination, j.retry_count < 5 →
       (j.retry msg 5).1.retry_count = j.retry_count + 1 ∧
       (j.retry msg 5).2.1.retries = 1 ∧
       (j.retry msg 5).2.2 = (j.retry_count : Int) + 1) ∧
    (∀ j : Imagination, 5 ≤ j.retry_count →
       (j.retry msg 5).1.retry_count = j.retry_count ∧
       (j.retry msg 5).1.status = ImaginationStatus.error ∧
       (j.retry msg 5).1.task_status = TaskStatusEnum.error ∧
       (j.retry msg 5).2.1.retries = 0 ∧
       (j.retry msg 5).2.2 = -1) := by
  refine ⟨?_, ?_, ?_⟩
  · intro n
    induction n with
    | zero => simp [retry_iter, h0]
    | succ n ih => exact retry_step_le _ msg ih
  · intro j hj
    simp [Imagination.retry, hj]
  · intro j hj
    have hc : ¬ j.retry_count < 5 := by omega
    simp [Imagination.retry, hc, Imagination.fail]

/-- Claim C3, witness: seven consecutive error transitions from a fresh
job stay within the ceiling, and a job at the ceiling fails permanently. -/
theorem retry_ceiling_witness :
    (retry_iter { } "boom" 7).retry_count ≤ 5 ∧
    (Imagination.retry { retry_count := 5 } "boom" 5).1.status = ImaginationStatus.error :=
  ⟨(retry_ceiling { } "boom" rfl).1 7,
   ((retry_ceiling { } "boom" rfl).2.2 { retry_count := 5 } (by decide)).2.1⟩

/-! ## Claim C7 — bulk notification (code bug) -/

/-- Claim C7 fails on the code: the bulk-notification block of
`Imagination.fail` (models.py 63-65) is unreachable behind the
unconditional `return` at line 62, and `imagine_bulk_result` — the
success-side notification — has no caller anywhere in the sources.  So a
terminal transition of a bulk-referenced child notifies the bulk
aggregation zero times, not exactly once: neither any permanent failure
nor any processed webhook ever produces a bulk notification, in
particular not for the concrete bulk-referenced child at its retry
ceiling. -/
theorem bulk_never_notified :
    (∀ (img : Imagination) (msg : String), (img.fail msg).2.bulk_notifies = 0) ∧
    (∀ img data uploadOk now img2 effs,
       process_imagine_webhook img data uploadOk now = Except.ok (img2, effs) →
       effs.bulk_notifies = 0) ∧
    ((({ bulk := some 1, retry_count := 5 } : Imagination).fail "boom").2.bulk_notifies = 0 ∧
     (({ bulk := some 1, retry_count := 5 } : Imagination).fail "boom").1.status =
       ImaginationStatus.error) := by
  have hfail : ∀ (img : Imagination) (msg : String), (img.fail msg).2.bulk_notifies = 0 := by
    intro img msg
    simp [Imagination.fail]
  refine ⟨hfail, ?_, hfail _ "boom", rfl⟩
  intro img data uploadOk now img2 effs h
  by_cases he : data.status = ImaginationStatus.error
  · by_cases hc : img.retry_count < 5 <;>
      · simp [process_imagine_webhook, he, Imagination.retry, Imagination.fail, hc] at h
        obtain ⟨h1, h2⟩ := h
        subst h2
        rfl
  · by_cases hcm : data.status = ImaginationStatus.completed
    · cases hu : data.result_url with
      | none => simp [process_imagine_webhook, he, hcm, hu] at h
      | some url =>
        by_cases hup : uploadOk <;>
          · simp [process_imagine_webhook, he, hcm, hu, hup, process_result,
              ImaginationStatus.is_done] at h
            obtain ⟨h1, h2⟩ := h
            subst h2
            rfl
    · by_cases htm : data.status.is_done = false ∧ 10 ≤ now - img.created_at <;>
        · simp [process_imagine_webhook, he, hcm, htm, Imagination.fail] at h
          obtain ⟨h1, h2⟩ := h
          subst h2
          rfl

/-- Claim C7, witness: the concrete bulk-referenced child at the ceiling
fails without notifying the bulk, and processing a concrete terminal
error payload notifies the bulk zero times. -/
theorem bulk_never_notified_witness :
    ((({ bulk := some 1, retry_count := 5 } : Imagination).fail "boom").2.bulk_notifies = 0) ∧
    ∃ img2 effs,
      process_imagine_webhook { } errorPayload true 0 = Except.ok (img2, effs) ∧
      effs.bulk_notifies = 0 := by
  refine ⟨bulk_never_notified.1 _ "boom", ?_⟩
  have hpr : ∃ p, process_imagine_webhook { } errorPayload true 0 = Except.ok p := by
    cases h : process_imagine_webhook { } errorPayload true 0 with
    | ok p => exact ⟨p, rfl⟩
    | error e =>
      have hn : okState (process_imagine_webhook { } errorPayload true 0) = Option.none := by
        rw [h]
        rfl
      exact absurd hn (by decide)
  obtain ⟨p, hp⟩ := hpr
  exact ⟨p.1, p.2, by rw [hp], bulk_never_notified.2.1 _ _ _ _ _ _ (by rw [hp])⟩

/-! ## Claim C5 — service timeout -/

/-- Claim C5: processing any non-terminal status update 10 or more minutes
after the job's creation finalizes the job as `error` with the
service-timeout message (which starts with "Service Timeout"), cancels the
accounting reservation when one exists, and releases the job's waiter
defensively. -/
theorem service_timeout_finalizes (img : Imagination) (data : WebhookData)
    (uploadOk : Bool) (now : Nat)
    (hnd : data.status.is_done = false)
    (ht : img.created_at + 10 ≤ now) :
    ∃ img2 effs,
      process_imagine_webhook img data uploadOk now = Except.ok (img2, effs) ∧
      img2.status = ImaginationStatus.error ∧
      img2.task_status = TaskStatusEnum.error ∧
      img2.error = some serviceTimeoutMsg ∧
      "Service Timeout".data.isPrefixOf serviceTimeoutMsg.data = true ∧
      effs.releases = 1 ∧
      effs.usage_cancels = (if img.usage_id.isSome then 1 else 0) ∧
      effs.uploads = 0 ∧ effs.retries = 0 := by
  have he : data.status ≠ ImaginationStatus.error := by
    intro e
    rw [e] at hnd
    exact Bool.noConfusion hnd
  have hcm : data.status ≠ ImaginationStatus.completed := by
    intro e
    rw [e] at hnd
    exact Bool.noConfusion hnd
  have htm : data.status.is_done = false ∧ 10 ≤ now - img.created_at :=
    ⟨hnd, by omega⟩
  use { img with task_progress := data.percentage, task_status := TaskStatusEnum.error, status := ImaginationStatus.error, error := some serviceTimeoutMsg }
  use { usage_cancels := if img.usage_id.isSome then 1 else 0, releases := 1 }
  refine ⟨?_, rfl, rfl, rfl, by decide, rfl, rfl, rfl, rfl⟩
  simp [process_imagine_webhook, he, hcm, htm, Imagination.fail]

/-- Claim C5, witness: the queued job with reservation `7`, created at
minute 0 and receiving a `processing` update at minute 10, is finalized as
a service timeout. -/
theorem service_timeout_finalizes_witness :
    ∃ img2 effs,
      process_imagine_webhook timedOutJob latePayload true 10 = Except.ok (img2, effs) ∧
      img2.status = ImaginationStatus.error ∧
      img2.error = some serviceTimeoutMsg ∧
      effs.usage_cancels = 1 ∧ effs.releases = 1 := by
  obtain ⟨img2, effs, h1, h2, h3, h4, h5, h6, h7, h8⟩ :=
    service_timeout_finalizes timedOutJob latePayload true 10 (by decide) (by decide)
  exact ⟨img2, effs, h1, h2, h4, by simpa using h7, h6⟩

/-! ## Claim C1 — webhook idempotence for terminal jobs -/

/-- Claim C1, counterexample: `terminalJob` is already terminal
(`completed`), yet the webhook route reprocesses the duplicate terminal
payload — the delivery performs one upload and one release (not zero), and
a second identical delivery performs another upload, so two deliveries
make two uploads, not one. -/
theorem duplicate_terminal_webhook_reprocessed :
    terminalJob.status.is_done = true ∧
    routeEffects (webhook terminalJob completedPayload true 0) =
      some { uploads := 1, releases := 1 } ∧
    ((routeState (webhook terminalJob completedPayload true 0)).bind
        (fun j => routeEffects (webhook j completedPayload true 0))).map
      Effects.uploads = some 1 := by
  exact ⟨rfl, rfl, rfl⟩

/-- Claim C1, amended: the only no-op guard of the webhook handler is on
status `cancelled` (a cancelled job is acknowledged without side effects);
a job in the terminal state `completed` that receives a terminal
`completed` payload with a result URL is reprocessed, performing one more
upload and one more release per delivery. -/
theorem webhook_cancelled_only_guard (img jc : Imagination) (data : WebhookData)
    (uploadOk : Bool) (now : Nat) (url : String)
    (hjs : jc.status = ImaginationStatus.cancelled)
    (hje : jc.engine = EngineCore.midjourney)
    (hie : img.engine = EngineCore.midjourney)
    (his : img.status = ImaginationStatus.completed)
    (hds : data.status = ImaginationStatus.completed)
    (hdu : data.result_url = some url) :
    webhook jc data uploadOk now = Except.ok (WebhookReply.cancelledMsg, jc, {}) ∧
    routeEffects (webhook img data uploadOk now) = some { uploads := 1, releases := 1 } := by
  constructor
  · simp [webhook, hje, hjs]
  · have hne : img.status ≠ ImaginationStatus.cancelled := by
      rw [his]
      exact fun e => ImaginationStatus.noConfusion e
    have hde : data.status ≠ ImaginationStatus.error := by
      rw [hds]
      exact fun e => ImaginationStatus.noConfusion e
    cases hup : uploadOk <;>
      simp [webhook, hie, hne, hde, hds, hdu, routeEffects,
        process_imagine_webhook, process_result, ImaginationStatus.is_done]

/-- Claim C1, witness for the amended theorem: the cancelled job is
acknowledged untouched while the completed job is reprocessed. -/
theorem webhook_cancelled_only_guard_witness :
    webhook { terminalJob with status := ImaginationStatus.cancelled } completedPayload true 0 =
      Except.ok (WebhookReply.cancelledMsg, { terminalJob with status := ImaginationStatus.cancelled }, {}) ∧
    routeEffects (webhook terminalJob completedPayload true 0) =
      some { uploads := 1, releases := 1 } :=
  webhook_cancelled_only_guard terminalJob
    { terminalJob with status := ImaginationStatus.cancelled } completedPayload true 0
    "http://x/img.png" rfl rfl rfl rfl rfl rfl

/-! ## Claim C4 — result/status invariant -/

/-- Claim C4, counterexample: on the polling path a `completed` result
whose upload fails (the exception is swallowed by `try_except_wrapper`)
leaves the job with `status = completed` and an empty `result` — the
"result non-empty iff completed" invariant fails at this reachable
state. -/
theorem completed_status_with_empty_results :
    (okState (check_imagination_status pollingJob uriPayload false 0)).map
        (fun j => (j.status, j.results)) =
      some (ImaginationStatus.completed, Option.none) ∧
    (okEffects (check_imagination_status pollingJob uriPayload false 0)).map
        Effects.uploads = some 1 := by
  exact ⟨rfl, rfl⟩

/-- Claim C4, amended: processing a `completed` signal with a result URL
sets `results` to a non-empty list when the upload succeeds, and a job
whose `results` is already a non-empty list never has it cleared by any
further processing; but `results` non-empty is not equivalent to
`status = completed` — a swallowed upload failure leaves `results` empty
while the polling path has already set `status = completed`. -/
theorem results_set_on_successful_upload (img : Imagination) (data : WebhookData)
    (now : Nat) :
    (∀ url img2 effs, data.status = ImaginationStatus.completed →
       data.result_url = some url →
       process_imagine_webhook img data true now = Except.ok (img2, effs) →
       ∃ l, img2.results = some l ∧ l ≠ []) ∧
    (∀ uploadOk img2 effs l,
       process_imagine_webhook img data uploadOk now = Except.ok (img2, effs) →
       img.results = some l → l ≠ [] →
       ∃ l2, img2.results = some l2 ∧ l2 ≠ []) := by
  constructor
  · intro url img2 effs hds hdu h
    have hde : data.status ≠ ImaginationStatus.error := by
      rw [hds]
      exact fun e => ImaginationStatus.noConfusion e
    by_cases heng : img.engine = EngineCore.midjourney <;>
      · simp [process_imagine_webhook, hde, hds, hdu, process_result,
          ImaginationStatus.is_done, heng] at h
        obtain ⟨h1, h2⟩ := h
        subst h1
        simp
  · intro uploadOk img2 effs l h hl hlne
    by_cases he : data.status = ImaginationStatus.error
    · by_cases hc : img.retry_count < 5 <;>
        · simp [process_imagine_webhook, he, Imagination.retry, Imagination.fail, hc] at h
          obtain ⟨h1, h2⟩ := h
          subst h1
          exact ⟨l, by simpa using hl, hlne⟩
    · by_cases hcm : data.status = ImaginationStatus.completed
      · cases hu : data.result_url with
        | none => simp [process_imagine_webhook, he, hcm, hu] at h
        | some url =>
          cases hup : uploadOk
          · simp [process_imagine_webhook, he, hcm, hu, hup, process_result,
              ImaginationStatus.is_done] at h
            obtain ⟨h1, h2⟩ := h
            subst h1
            exact ⟨l, by simpa using hl, hlne⟩
          · by_cases heng : img.engine = EngineCore.midjourney <;>
              · simp [process_imagine_webhook, he, hcm, hu, hup, process_result,
                  ImaginationStatus.is_done, heng] at h
                obtain ⟨h1, h2⟩ := h
                subst h1
                simp
      · by_cases htm : data.status.is_done = false ∧ 10 ≤ now - img.created_at <;>
          · simp [process_imagine_webhook, he, hcm, htm, Imagination.fail] at h
            obtain ⟨h1, h2⟩ := h
            subst h1
            exact ⟨l, by simpa using hl, hlne⟩

/-- Claim C4, witness for the amended theorem: a successful upload on a
completed payload for the waiting job yields non-empty results. -/
theorem results_set_on_successful_upload_witness :
    ∃ img2 effs l,
      process_imagine_webhook pollingJob uriPayload true 0 = Except.ok (img2, effs) ∧
      img2.results = some l ∧ l ≠ [] := by
  have hpr : ∃ p, process_imagine_webhook pollingJob uriPayload true 0 = Except.ok p := by
    cases h : process_imagine_webhook pollingJob uriPayload true 0 with
    | ok p => exact ⟨p, rfl⟩
    | error e =>
      have hn : okState (process_imagine_webhook pollingJob uriPayload true 0) = Option.none := by
        rw [h]
        rfl
      exact absurd hn (by decide)
  obtain ⟨p, hp⟩ := hpr
  obtain ⟨l, h1, h2⟩ := (results_set_on_successful_upload pollingJob uriPayload 0).1
    "http://y/img.png" p.1 p.2 rfl rfl (by rw [hp])
  exact ⟨p.1, p.2, l, by rw [hp], h1, h2⟩

/-! ## Claim C2 — bulk terminal rule -/

/-- Claim C2, counterexample: the all-children-failed bulk does reach the
terminal status `error`, but no completion timestamp is recorded on that
terminal transition — `completed_at` is set only on the `completed`
branch of `imagine_bulk_process`. -/
theorem bulk_error_transition_has_no_timestamp :
    (imagine_bulk_process procBulk [errorChild] 99).task_status = TaskStatusEnum.error ∧
    (imagine_bulk_process procBulk [errorChild] 99).completed_at = Option.none := by
  exact ⟨rfl, rfl⟩

/-- Claim C2, amended: a bulk job becomes terminal exactly when
`completed + failed` children equal `total_tasks`; the terminal status is
`completed` whenever some child succeeded (`failed < total_tasks`) and
`error` only when all children failed; a bulk with some failed children
still reaches `completed` with a non-empty `errors` list; and the
completion timestamp is recorded exactly on the `completed` terminal
transition — the all-failed `error` transition records none. -/
theorem bulk_terminal_rule (bulk : ImaginationBulk) (children : List Imagination)
    (now : Nat) (hp : bulk.task_status = TaskStatusEnum.processing) :
    (((imagine_bulk_process bulk children now).task_status = TaskStatusEnum.completed ∨
      (imagine_bulk_process bulk children now).task_status = TaskStatusEnum.error) ↔
       (failed_tasks children).length + (completed_tasks children).length =
         bulk.total_tasks) ∧
    ((failed_tasks children).length + (completed_tasks children).length =
         bulk.total_tasks →
       ((failed_tasks children).length < bulk.total_tasks →
          (imagine_bulk_process bulk children now).task_status = TaskStatusEnum.completed ∧
          (imagine_bulk_process bulk children now).completed_at = some now) ∧
       ((failed_tasks children).length = bulk.total_tasks →
          (imagine_bulk_process bulk children now).task_status = TaskStatusEnum.error ∧
          (imagine_bulk_process bulk children now).completed_at = bulk.completed_at)) ∧
    (failed_tasks children ≠ [] →
       (failed_tasks children).length + (completed_tasks children).length =
         bulk.total_tasks →
       (failed_tasks children).length < bulk.total_tasks →
       (ImaginationBulk.fail bulk children now).task_status = TaskStatusEnum.completed ∧
       (ImaginationBulk.fail bulk children now).errors ≠ [] ∧
       (ImaginationBulk.fail bulk children now).completed_at = some now) := by
  by_cases hq : (failed_tasks children).length + (completed_tasks children).length =
      bulk.total_tasks
  · by_cases hft : (failed_tasks children).length = bulk.total_tasks
    · have hc0 : completed_tasks children = [] :=
        List.length_eq_zero.mp (by omega)
      refine ⟨?_, fun _ => ⟨fun hlt => absurd hft (by omega), fun _ => ?_⟩,
        fun _ _ hlt => absurd hft (by omega)⟩
      · simp [imagine_bulk_process, hq, hft, hc0]
      · simp [imagine_bulk_process, hq, hft, hc0]
    · refine ⟨?_, fun _ => ⟨fun _ => ?_, fun h => absurd h hft⟩, fun hne _ _ => ?_⟩
      · simp [imagine_bulk_process, hq, hft]
      · simp [imagine_bulk_process, hq, hft]
      · have hfe : failed_tasks children ≠ [] := hne
        refine ⟨?_, ?_, ?_⟩ <;>
          simp [ImaginationBulk.fail, imagine_bulk_process, hq, hft, hfe]
  · refine ⟨?_, fun h => absurd h hq, fun hne h => absurd h hq⟩
    simp [imagine_bulk_process, hq, hp]

/-- Claim C2, witness for the amended theorem: the two-child bulk with one
success and one failure terminates `completed` with one recorded error and
a completion timestamp. -/
theorem bulk_terminal_rule_witness :
    (ImaginationBulk.fail mixedBulk [completedChild, errorChild] 5).task_status =
      TaskStatusEnum.completed ∧
    (ImaginationBulk.fail mixedBulk [completedChild, errorChild] 5).errors ≠ [] ∧
    (ImaginationBulk.fail mixedBulk [completedChild, errorChild] 5).completed_at = some 5 :=
  (bulk_terminal_rule mixedBulk [completedChild, errorChild] 5 rfl).2.2
    (by decide) (by decide) (by decide)

/-! ## Claim C8 — no lost wakeup -/

/-- `get_condition` leaves the registry holding exactly the condition it
returns. -/
theorem get_condition_registry (s : CoordState) :
    (get_condition s).2.registry = some (get_condition s).1 := by
  cases h : s.registry <;> simp [get_condition, h]

/-- Registry consistency survives a waiter turn: the atomic
register-and-suspend stretch installs the condition it suspends on. -/
theorem coordInv_waiter (s : CoordState) (h : coordInv s) :
    coordInv (waiter_step s) := by
  obtain ⟨reg, nid, pc, wc⟩ := s
  cases pc with
  | start =>
    intro _
    exact ⟨(get_condition ⟨reg, nid, WaiterPC.start, wc⟩).1, rfl,
      get_condition_registry ⟨reg, nid, WaiterPC.start, wc⟩⟩
  | waiting => exact h
  | woken => exact h

/-- Registry consistency survives a release turn: a release that finds the
waiter suspended wakes it (so the suspended case cannot persist), and a
release with no suspended waiter leaves no suspended waiter behind. -/
theorem coordInv_release (s : CoordState) (h : coordInv s) :
    coordInv (release_step s) := by
  obtain ⟨reg, nid, pc, wc⟩ := s
  cases pc with
  | waiting =>
    obtain ⟨c, hc, hr⟩ := h rfl
    subst hc hr
    intro hw
    exfalso
    simp [release_step, get_condition] at hw
  | start =>
    intro hw
    exfalso
    cases reg <;> simp [release_step, get_condition] at hw
  | woken =>
    intro hw
    exfalso
    cases reg <;> simp [release_step, get_condition] at hw

/-- Registry consistency survives any schedule. -/
theorem coordInv_run (ms : List CoordMove) (s : CoordState) (h : coordInv s) :
    coordInv (coord_run ms s) := by
  induction ms generalizing s with
  | nil => exact h
  | cons m ms ih =>
    cases m with
    | waiter => exact ih _ (coordInv_waiter s h)
    | release => exact ih _ (coordInv_release s h)

/-- Claim C8: registration and suspension execute as one synchronous
stretch, atomic with respect to release, so no release can land between
the waiter's `get_condition` and its suspension in `condition.wait()`;
and under every schedule, a release delivered while the waiter is
suspended finds the waiter's condition still registered and wakes it — no
wakeup is lost.  In particular a release arriving before the waiter even
registers is a harmless no-op: the waiter's later registration installs a
fresh condition and a later release still wakes it. -/
theorem wakeup_race_free :
    (∀ ms : List CoordMove, (coord_run ms { }).waiter_pc = WaiterPC.waiting →
       (release_step (coord_run ms { })).waiter_pc = WaiterPC.woken) ∧
    (coord_run [CoordMove.release, CoordMove.waiter, CoordMove.release] { }).waiter_pc =
      WaiterPC.woken ∧
    (coord_run [CoordMove.waiter, CoordMove.release] { }).waiter_pc = WaiterPC.woken := by
  refine ⟨?_, rfl, rfl⟩
  intro ms hw
  have hinv := coordInv_run ms { } (by intro hw0; simp at hw0)
  obtain ⟨c, hc, hr⟩ := hinv hw
  have hg : get_condition (coord_run ms { }) = (c, coord_run ms { }) := by
    simp [get_condition, hr]
  simp [release_step, hg, hw, hc]

/-- Claim C8, witness: after the waiter's atomic register-and-suspend
turn, one release wakes it. -/
theorem wakeup_race_free_witness :
    (release_step (coord_run [CoordMove.waiter] { })).waiter_pc = WaiterPC.woken :=
  wakeup_race_free.1 [CoordMove.waiter] rfl

end Imagine
